import Mathlib

/-!
Verification development for the tcgdata repository (scripts/utils.py and
scripts/daily_update.py), a shallow embedding in Lean 4.

Conventions of the embedding:
  - JSON values are modelled by the inductive `Json`; Python `None` and JSON
    `null` are both `Json.null` (exactly how `json.load` conflates them).
  - Numbers are rationals; file contents that fail `json.load` are modelled
    as `Option.none` at the entry level.
  - Machine state (the product store, the scratch directory) is passed
    explicitly; functions that can raise return `Except`.
-/

namespace TcgData

/-- Enumeration of the five tracked price fields (PRICE_FIELDS in utils.py). -/
inductive PField where
  | lowPrice
  | midPrice
  | highPrice
  | marketPrice
  | directLowPrice
deriving DecidableEq

/-- Source constant PRICE_FIELDS, utils.py line 27. -/
def PRICE_FIELDS : List PField :=
  [PField.lowPrice, PField.midPrice, PField.highPrice, PField.marketPrice,
   PField.directLowPrice]

/-- Field name as it appears in the JSON documents. -/
def PField.name : PField → String
  | PField.lowPrice => "lowPrice"
  | PField.midPrice => "midPrice"
  | PField.highPrice => "highPrice"
  | PField.marketPrice => "marketPrice"
  | PField.directLowPrice => "directLowPrice"

/-- A JSON value as produced by json.load. Objects are association lists. -/
inductive Json where
  | null
  | bool (b : Bool)
  | num (q : ℚ)
  | str (s : String)
  | arr (elems : List Json)
  | obj (fields : List (String × Json))

/-- Python truthiness of a loaded JSON value, as tested by the expression
if not product_id in utils.py line 112: None, False, 0, the empty string and
empty containers are falsy, everything else truthy. -/
def truthy : Json → Bool
  | Json.null => false
  | Json.bool b => b
  | Json.num q => decide (q ≠ 0)
  | Json.str s => !(s == "")
  | Json.arr l => !l.isEmpty
  | Json.obj l => !l.isEmpty

/-- Dictionary lookup item.get(k): absent key gives Python None (Json.null);
a key stored with JSON null also gives None, which Json.null models as well. -/
def jget (item : List (String × Json)) (k : String) : Json :=
  (item.lookup k).getD Json.null

/-- Dictionary lookup with a default, item.get(k, d): the default is used only
when the key is absent, a stored null is returned as is. -/
def jgetD (item : List (String × Json)) (k : String) (d : Json) : Json :=
  (item.lookup k).getD d

/-- A raw price record as built by extract_prices_from_archive, utils.py
lines 116 to 123: the date label, the raw productId and subTypeName values,
and one JSON value per tracked price field (null when absent). -/
structure RawRecord where
  date : String
  productId : Json
  subTypeName : Json
  price : PField → Json

/-- Per-item record construction, utils.py lines 108 to 126: read productId
and subTypeName (default "Normal"), skip the item when productId is falsy,
otherwise build the record with a missing-safe lookup of every price field. -/
def build_record (date_str : String) (item : List (String × Json)) :
    Option RawRecord :=
  let product_id := jget item "productId"
  let sub_type := jgetD item "subTypeName" (Json.str "Normal")
  if truthy product_id then
    some { date := date_str, productId := product_id, subTypeName := sub_type,
           price := fun f => jget item (PField.name f) }
  else
    none

/-- Item list of a parsed entry, utils.py lines 98 to 106: a dict with a
results key yields that value when it is a list; a bare list yields its
elements; any other dict is a one-element list; every other shape is skipped.
When the results value is not a list, iterating it in Python either raises
at the first item (the per-file handler catches it) or yields values that are
not dicts, so no record results either way, which the empty list models. -/
def itemsOf : Json → List Json
  | Json.obj fs =>
      match fs.lookup "results" with
      | some (Json.arr l) => l
      | some _ => []
      | none => [Json.obj fs]
  | Json.arr l => l
  | _ => []

/-- Iteration over the items of one entry, utils.py lines 108 to 126. A non
dict item makes item.get raise AttributeError, which the per-file handler at
line 130 catches: records already appended are kept and the rest of this
entry is abandoned, which returning the empty tail models. -/
def processItems (date_str : String) : List Json → List RawRecord
  | [] => []
  | Json.obj fs :: rest =>
      (build_record date_str fs).toList ++ processItems date_str rest
  | _ :: _ => []

/-- Processing of one qualifying entry, utils.py lines 94 to 131: Option.none
models a json.JSONDecodeError, which is logged and skipped (line 128), so the
entry contributes no records; a parsed value is handled by shape. -/
def processEntry (date_str : String) : Option Json → List RawRecord
  | none => []
  | some content => processItems date_str (itemsOf content)

/-- Splitting of a character list at every slash, keeping empty pieces: the
behaviour of the Python split with a one-character separator. The result is
never the empty list, so splitting the empty path gives one empty segment,
exactly as in Python. -/
def splitSlash : List Char → List (List Char)
  | [] => [[]]
  | c :: rest =>
      if c = '/' then [] :: splitSlash rest
      else
        match splitSlash rest with
        | [] => [[c]]
        | piece :: pieces => (c :: piece) :: pieces

/-- Path segmentation, utils.py line 71: every backslash is replaced by a
slash (the Python replace with one-character arguments is a character map)
and the result is split on slashes, keeping empty segments like the Python
split does. -/
def segments (fname : String) : List String :=
  (splitSlash (fname.data.map (fun c => if c = '\\' then '/' else c))).map
    (fun cs => String.mk cs)

/-- Entry qualification test, utils.py line 72: at least 4 segments, second
segment in the target categories, last segment the literal prices. -/
def qualifies (target : List String) (fname : String) : Bool :=
  let parts := segments fname
  decide (4 ≤ parts.length) && target.contains (parts.getD 1 "")
    && (parts.getLastD "" == "prices")

/-- An entry of the archive: its internal path and its content, where
Option.none stands for a file whose bytes json.load rejects. -/
structure ArchiveEntry where
  path : String
  content : Option Json

/-- Filtering of the archive listing, utils.py lines 69 to 73. -/
def files_to_process (target : List String) (entries : List ArchiveEntry) :
    List ArchiveEntry :=
  entries.filter (fun e => qualifies target e.path)

/-- The record sequence produced by extract_prices_from_archive, utils.py
lines 53 to 140, in processing order. The source appends each record to a
dict keyed by (categoryId, str(productId), subTypeName); that grouping is a
function of this flat sequence and is orthogonal to the claims below. -/
def extract_prices_from_archive (date_str : String) (target : List String)
    (entries : List ArchiveEntry) : List RawRecord :=
  (files_to_process target entries).flatMap (fun e => processEntry date_str e.content)

/-- C4: an archive entry is selected for extraction and parsing if and only
if it is listed in the archive, its path has at least 4 segments, its second
segment is a member of the target category ids, and its final segment is the
literal name prices; all other entries are never extracted or parsed, since
extraction and parsing range over files_to_process only. -/
theorem extractor_selects_entry_iff (target : List String)
    (entries : List ArchiveEntry) (e : ArchiveEntry) :
    e ∈ files_to_process target entries ↔
      e ∈ entries ∧ 4 ≤ (segments e.path).length ∧
        (segments e.path).getD 1 "" ∈ target ∧
        (segments e.path).getLastD "" = "prices" := by
  simp [files_to_process, List.mem_filter, qualifies, List.contains_iff_exists_mem_beq,
    and_assoc]

/-- C6: an entry whose bytes json.load rejects is skipped without aborting
the archive: the extractor returns exactly the records parsed from the other
entries, wherever in the listing the malformed entry sits. -/
theorem malformed_entry_is_skipped (date_str : String) (target : List String)
    (pre post : List ArchiveEntry) (p : String) :
    extract_prices_from_archive date_str target (pre ++ ArchiveEntry.mk p none :: post) =
      extract_prices_from_archive date_str target (pre ++ post) := by
  simp only [extract_prices_from_archive, files_to_process, List.filter_append,
    List.filter_cons]
  by_cases h : qualifies target p
  · simp [h, processEntry]
  · simp [h]

/-- Concrete item holding a present, non-null, numeric productId equal to 0;
the Python test if not product_id treats 0 as falsy and skips the item. -/
def item0 : List (String × Json) :=
  [("productId", Json.num 0), ("marketPrice", Json.num 5)]

/-- C5 counterexample: the item carries the non-null productId 0, yet
build_record skips it, because utils.py line 112 tests Python truthiness
rather than presence or non-nullness. -/
theorem productId_zero_item_is_skipped :
    jget item0 "productId" = Json.num 0 ∧
    jget item0 "productId" ≠ Json.null ∧
    build_record "2024-01-01" item0 = none := by
  refine ⟨rfl, fun h => Json.noConfusion h, rfl⟩

/-- C5 amended: a PriceRecord is built exactly when the productId read from
the item is truthy in the Python sense (so items whose productId is missing,
null, 0, false, an empty string or an empty container are the ones skipped);
a built record carries the call date label, subTypeName read with default
Normal applied only when the key is absent, and every tracked price field
read by a missing-safe lookup that yields null for absent fields. -/
theorem record_built_iff_productId_truthy (d : String)
    (item : List (String × Json)) :
    ((build_record d item).isSome ↔ truthy (jget item "productId") = true) ∧
    (∀ r, build_record d item = some r →
      r.date = d ∧
      r.subTypeName = jgetD item "subTypeName" (Json.str "Normal") ∧
      (item.lookup "subTypeName" = none → r.subTypeName = Json.str "Normal") ∧
      ∀ f, r.price f = jget item (PField.name f)) := by
  constructor
  · by_cases h : truthy (jget item "productId") <;> simp [build_record, h]
  · intro r hr
    by_cases h : truthy (jget item "productId")
    · have hr2 : RawRecord.mk d (jget item "productId")
          (jgetD item "subTypeName" (Json.str "Normal"))
          (fun f => jget item (PField.name f)) = r := by
        simpa [build_record, h] using hr
      subst hr2
      refine ⟨rfl, rfl, ?_, fun f => rfl⟩
      intro hn
      simp [jgetD, hn]
    · simp [build_record, h] at hr

/-- Concrete item with a truthy productId, used to witness the theorem. -/
def item1 : List (String × Json) := [("productId", Json.num 7)]

/-- The record build_record produces from item1. -/
def rec1 : RawRecord :=
  { date := "2024-01-01", productId := jget item1 "productId",
    subTypeName := jgetD item1 "subTypeName" (Json.str "Normal"),
    price := fun f => jget item1 (PField.name f) }

/-- Witness for the amended C5 theorem at the concrete item item1. -/
theorem record_built_iff_productId_truthy_witness :
    rec1.date = "2024-01-01" ∧
    rec1.price PField.marketPrice = jget item1 "marketPrice" := by
  have h := (record_built_iff_productId_truthy "2024-01-01" item1).2 rec1 rfl
  exact ⟨h.1, h.2.2.2 PField.marketPrice⟩

/-- A price record as consumed by calculate_averages, utils.py lines 143 to
189: the parsed calendar date as an absolute day number (none models a date
label that strptime rejects, utils.py line 170), and one optional rational
per tracked price field (the data model says each field is an optional
decimal). The identity fields are not read by calculate_averages and are
omitted here. -/
structure PriceRecord where
  date : Option ℤ
  price : PField → Option ℚ

/-- Sort key for the descending sort at utils.py line 155. The source sorts
by the date label; for well-formed labels the lexicographic order of labels
agrees with the order of day numbers, and calc_avg_perm below shows the
output of the aggregation does not depend on the record order at all, so the
key chosen for unparseable dates is immaterial. -/
def sortKey (r : PriceRecord) : ℤ :=
  r.date.getD 0

/-- Records sorted by date, newest first, utils.py line 155. -/
def sorted_records (price_records : List PriceRecord) : List PriceRecord :=
  List.insertionSort (fun a b => sortKey b ≤ sortKey a) price_records

/-- Window membership test, utils.py lines 161 to 171: the day difference
today minus record date must be at most n; a record whose date fails to parse
is skipped (ValueError handler, line 170). There is no lower bound on the
difference, so dates in the future also pass. -/
def inWindow (n today : ℤ) (r : PriceRecord) : Bool :=
  match r.date with
  | some d => decide (today - d ≤ n)
  | none => false

/-- Accumulated 30 day window, utils.py lines 158 to 167. -/
def records_30d (today : ℤ) (l : List PriceRecord) : List PriceRecord :=
  (sorted_records l).filter (inWindow 30 today)

/-- Accumulated 7 day window, utils.py lines 159 to 169. -/
def records_7d (today : ℤ) (l : List PriceRecord) : List PriceRecord :=
  (sorted_records l).filter (inWindow 7 today)

/-- Rounding to 2 decimal places, the round(x, 2) at utils.py line 178,
modelled exactly over the rationals. -/
def round2 (q : ℚ) : ℚ :=
  ((round (q * 100) : ℤ) : ℚ) / 100

/-- The inner calc_avg of utils.py lines 173 to 178: collect the non-null
values of the field, return null when there are none, otherwise the rounded
arithmetic mean. -/
def calc_avg (records : List PriceRecord) (field : PField) : Option ℚ :=
  let values := records.filterMap (fun r => r.price field)
  if values.isEmpty then none
  else some (round2 (values.sum / (values.length : ℚ)))

/-- The result shape of calculate_averages: one optional average per field
and window. -/
structure Averages where
  avg30 : PField → Option ℚ
  avg7 : PField → Option ℚ

/-- calculate_averages, utils.py lines 143 to 189, with now passed in as the
day number today: None on an empty record list, otherwise the per-field
averages over the two windows. -/
def calculate_averages (today : ℤ) (price_records : List PriceRecord) :
    Option Averages :=
  if price_records.isEmpty then none
  else
    some { avg30 := fun field => calc_avg (records_30d today price_records) field,
           avg7 := fun field => calc_avg (records_7d today price_records) field }

/-- Modelled from the words of claim C1: a record qualifies for the n day
window when its date falls within the last n days relative to now, that is
when the difference is between 0 and n. -/
def claimInWindow (n today : ℤ) (r : PriceRecord) : Bool :=
  match r.date with
  | some d => decide (0 ≤ today - d) && decide (today - d ≤ n)
  | none => false

/-- Modelled from the words of claim C1: the rounded arithmetic mean of the
non-null values of the field among qualifying records, null exactly when no
qualifying record carries a non-null value. -/
def claimFieldAvg (n today : ℤ) (l : List PriceRecord) (f : PField) : Option ℚ :=
  let vals := (l.filter (claimInWindow n today)).filterMap (fun r => r.price f)
  if vals.isEmpty then none
  else some (round2 (vals.sum / (vals.length : ℚ)))

/-- The amended window mean: identical to claimFieldAvg except that the
window has no lower bound, matching the code. -/
def amendedFieldAvg (n today : ℤ) (l : List PriceRecord) (f : PField) : Option ℚ :=
  let vals := (l.filter (inWindow n today)).filterMap (fun r => r.price f)
  if vals.isEmpty then none
  else some (round2 (vals.sum / (vals.length : ℚ)))

/-- calc_avg only depends on the multiset of records: permuted inputs give
the same average. In particular the sort performed by the source is
immaterial to the output. -/
theorem calc_avg_perm {l1 l2 : List PriceRecord} (h : l1.Perm l2) (f : PField) :
    calc_avg l1 f = calc_avg l2 f := by
  have hv := h.filterMap (fun r => r.price f)
  by_cases h1 : (l1.filterMap (fun r => r.price f)) = []
  · have h2 : (l2.filterMap (fun r => r.price f)) = [] := by
      have := h1 ▸ hv
      exact this.symm.eq_nil
    simp [calc_avg, h1, h2]
  · have h2 : (l2.filterMap (fun r => r.price f)) ≠ [] := by
      intro h2
      exact h1 (h2 ▸ hv).eq_nil
    have he1 : (l1.filterMap (fun r => r.price f)).isEmpty = false := by simp [h1]
    have he2 : (l2.filterMap (fun r => r.price f)).isEmpty = false := by simp [h2]
    simp [calc_avg, he1, he2, hv.sum_eq, hv.length_eq]

/-- The 30 day window list is a permutation of the unsorted filter. -/
theorem records_30d_perm (today : ℤ) (l : List PriceRecord) :
    (records_30d today l).Perm (l.filter (inWindow 30 today)) :=
  (List.perm_insertionSort _ l).filter _

/-- The 7 day window list is a permutation of the unsorted filter. -/
theorem records_7d_perm (today : ℤ) (l : List PriceRecord) :
    (records_7d today l).Perm (l.filter (inWindow 7 today)) :=
  (List.perm_insertionSort _ l).filter _

/-- Concrete record dated one day in the future of the fixed now 100, with a
single non-null field. -/
def rFuture : PriceRecord :=
  { date := some 101,
    price := fun f => if f = PField.marketPrice then some 1 else none }

/-- C1 counterexample: at now equal to day 100, the record dated day 101 does
not fall within the last 30 days, so the claim requires avg30 to be null for
marketPrice; the code nevertheless averages it, because the window test at
utils.py line 166 has no lower bound on the day difference. -/
theorem avg30_counts_future_dates :
    (calculate_averages 100 [rFuture]).map (fun a => a.avg30 PField.marketPrice)
      = some (some 1) ∧
    claimFieldAvg 30 100 [rFuture] PField.marketPrice = none := by
  have h30 : records_30d 100 [rFuture] = [rFuture] := rfl
  constructor
  · simp only [calculate_averages, List.isEmpty_cons, Bool.false_eq_true,
      if_false, Option.map_some']
    rw [h30]
    simp only [calc_avg, List.filterMap_cons, List.filterMap_nil, rFuture]
    norm_num [round2, round_eq]
  · rfl

/-- C1 amended: for a non-empty record list the computed avg30 and avg7 of
each field equal the rounded arithmetic mean of the non-null values of that
field among records whose date lies at most 30 (resp. 7) days before now,
with no lower bound on the difference (future dates qualify too), and are
null exactly when no such record carries a non-null value; an empty record
list gives no result at all. -/
theorem calculate_averages_amended (today : ℤ) (l : List PriceRecord)
    (h : l ≠ []) :
    ∃ a, calculate_averages today l = some a ∧
      ∀ f, a.avg30 f = amendedFieldAvg 30 today l f ∧
           a.avg7 f = amendedFieldAvg 7 today l f := by
  have hne : l.isEmpty = false := by simp [h]
  refine ⟨Averages.mk (fun field => calc_avg (records_30d today l) field)
      (fun field => calc_avg (records_7d today l) field), ?_, ?_⟩
  · simp [calculate_averages, hne]
  · intro f
    exact ⟨calc_avg_perm (records_30d_perm today l) f,
           calc_avg_perm (records_7d_perm today l) f⟩

/-- Witness for the amended C1 theorem at a concrete input. -/
theorem calculate_averages_amended_witness :
    (calculate_averages 100 [rFuture]).map (fun a => a.avg7 PField.marketPrice)
      = some (amendedFieldAvg 7 100 [rFuture] PField.marketPrice) := by
  obtain ⟨a, ha, hf⟩ := calculate_averages_amended 100 [rFuture] (by simp)
  rw [ha]
  exact congrArg some (hf PField.marketPrice).2

/-- C10: every record the aggregator counts toward the 7 day window is also
counted toward the 30 day window, and consequently a non-null avg7 for a
field forces a non-null avg30 for that field. The avg30 and avg7 components
of calculate_averages are exactly calc_avg applied to records_30d and
records_7d. -/
theorem seven_day_window_subset_of_thirty (today : ℤ) (l : List PriceRecord)
    (f : PField) :
    (∀ r ∈ records_7d today l, r ∈ records_30d today l) ∧
    (calc_avg (records_7d today l) f ≠ none →
      calc_avg (records_30d today l) f ≠ none) := by
  have hsub : ∀ r ∈ records_7d today l, r ∈ records_30d today l := by
    intro r hr
    rw [records_7d, List.mem_filter] at hr
    rw [records_30d, List.mem_filter]
    refine ⟨hr.1, ?_⟩
    have h7 := hr.2
    cases hd : r.date with
    | none => rw [inWindow, hd] at h7; exact absurd h7 (by simp)
    | some d =>
        rw [inWindow, hd] at h7 ⊢
        simp only [decide_eq_true_eq] at h7 ⊢
        omega
  refine ⟨hsub, ?_⟩
  intro h7
  by_cases h30e : ((records_30d today l).filterMap (fun r => r.price f)) = []
  · exfalso
    apply h7
    have h7e : ((records_7d today l).filterMap (fun r => r.price f)) = [] := by
      rw [List.eq_nil_iff_forall_not_mem]
      intro v hv
      rw [List.mem_filterMap] at hv
      obtain ⟨r, hr, hpr⟩ := hv
      have hvin : v ∈ (records_30d today l).filterMap (fun r => r.price f) :=
        List.mem_filterMap.mpr ⟨r, hsub r hr, hpr⟩
      rw [h30e] at hvin
      exact absurd hvin (List.not_mem_nil v)
    simp [calc_avg, h7e]
  · simp [calc_avg, h30e]

/-- Concrete record dated one day before now 100 with one non-null field. -/
def rPast : PriceRecord :=
  { date := some 99,
    price := fun f => if f = PField.marketPrice then some 2 else none }

/-- Witness for the C10 theorem at a concrete input with a non-null avg7. -/
theorem seven_day_window_subset_of_thirty_witness :
    calc_avg (records_30d 100 [rPast]) PField.marketPrice ≠ none :=
  (seven_day_window_subset_of_thirty 100 [rPast] PField.marketPrice).2 (by decide)

/-- Storage location of a product document, utils.py lines 196 to 198, as a
segment list: dataDir, then categoryId, then productId followed by the json
suffix. The subTypeName of the key takes no part in the path. -/
def outputPath (data_dir category_id product_id : String) : List String :=
  [data_dir, category_id, product_id ++ ".json"]

/-- The persisted document, utils.py lines 207 to 213. The source stores
int(product_id); toNat? models that conversion on the non-negative id
strings, with none standing for a string the conversion rejects. -/
structure AggregateDocument where
  productId : Option ℤ
  subTypeName : String
  lastUpdated : ℤ
  avg30 : PField → Option ℚ
  avg7 : PField → Option ℚ

/-- The on-disk product store, a map from storage paths to documents. -/
abbrev Store := List String → Option AggregateDocument

/-- update_product_file, utils.py lines 192 to 217, at a fixed now equal to
today: compute the averages of the records passed in, return the store
unchanged when there are none, otherwise overwrite the document at the
output path with one built solely from those records. The function never
reads the document previously stored at the path. -/
def update_product_file (store : Store) (today : ℤ)
    (data_dir category_id product_id sub_type : String)
    (price_records : List PriceRecord) : Store :=
  match calculate_averages today price_records with
  | none => store
  | some av => fun p =>
      if p = outputPath data_dir category_id product_id then
        some { productId := (product_id.toNat?).map Int.ofNat,
               subTypeName := sub_type, lastUpdated := today,
               avg30 := av.avg30, avg7 := av.avg7 }
      else store p

/-- C3: with now fixed, re-running the aggregation and store step on the
same record set yields the same final store as running it once, since the
write is a deterministic whole-document overwrite determined by the inputs
alone. -/
theorem update_product_file_idempotent (store : Store) (today : ℤ)
    (data_dir category_id product_id sub_type : String)
    (price_records : List PriceRecord) :
    update_product_file
        (update_product_file store today data_dir category_id product_id
          sub_type price_records)
        today data_dir category_id product_id sub_type price_records
      = update_product_file store today data_dir category_id product_id
          sub_type price_records := by
  cases h : calculate_averages today price_records with
  | none => simp [update_product_file, h]
  | some av =>
      funext p
      by_cases hp : p = outputPath data_dir category_id product_id <;>
        simp [update_product_file, h, hp]

/-- Record dated 20 days before now 100 carrying marketPrice 10, standing
for history persisted by an earlier (bootstrap) run. -/
def recOld : PriceRecord :=
  { date := some 80,
    price := fun f => if f = PField.marketPrice then some 10 else none }

/-- The store after a first run aggregated recOld for key (1, 555, Normal). -/
def storePrior : Store :=
  update_product_file (fun _ => none) 100 "data" "1" "555" "Normal" [recOld]

/-- The averages calculate_averages assigns to the single record rPast. -/
def avgsPast : Averages :=
  Averages.mk (fun field => calc_avg (records_30d 100 [rPast]) field)
    (fun field => calc_avg (records_7d 100 [rPast]) field)

/-- The averages calculate_averages assigns to the single record recOld. -/
def avgsOld : Averages :=
  Averages.mk (fun field => calc_avg (records_30d 100 [recOld]) field)
    (fun field => calc_avg (records_7d 100 [recOld]) field)

/-- C2 exhibits a code bug: the document previously stored for the key holds
avg30 marketPrice 10, yet the incremental run that passes only the one new
record rPast stores a document whose avg30 is 2, computed solely from that
record, and that document coincides with what the very same run would store
into an empty store: no load or merge of prior persisted state happens. -/
theorem incremental_run_discards_prior_state :
    ((update_product_file storePrior 100 "data" "1" "555" "Normal" [rPast])
        (outputPath "data" "1" "555")).map (fun d => d.avg30 PField.marketPrice)
      = some (some 2) ∧
    (storePrior (outputPath "data" "1" "555")).map
        (fun d => d.avg30 PField.marketPrice) = some (some 10) ∧
    (update_product_file storePrior 100 "data" "1" "555" "Normal" [rPast])
        (outputPath "data" "1" "555")
      = (update_product_file (fun _ => none) 100 "data" "1" "555" "Normal" [rPast])
        (outputPath "data" "1" "555") := by
  have hca : calculate_averages 100 [rPast] = some avgsPast := rfl
  have hco : calculate_averages 100 [recOld] = some avgsOld := rfl
  have h30p : records_30d 100 [rPast] = [rPast] := rfl
  have h30o : records_30d 100 [recOld] = [recOld] := rfl
  refine ⟨?_, ?_, ?_⟩
  · simp only [update_product_file, hca, if_pos rfl, Option.map_some']
    show some (calc_avg (records_30d 100 [rPast]) PField.marketPrice) = some (some 2)
    rw [h30p]
    simp only [calc_avg, List.filterMap_cons, List.filterMap_nil, rPast]
    norm_num [round2, round_eq]
  · simp only [storePrior, update_product_file, hco, if_pos rfl, Option.map_some']
    show some (calc_avg (records_30d 100 [recOld]) PField.marketPrice) = some (some 10)
    rw [h30o]
    simp only [calc_avg, List.filterMap_cons, List.filterMap_nil, recOld]
    norm_num [round2, round_eq]
  · simp [update_product_file, hca]

/-- C7 counterexample: the keys (1, 555, Normal) and (1, 555, Foil) are
distinct ProductKeys, yet both persist at outputPath data 1 555; the second
store overwrites the document of the first, as the surviving subTypeName
shows. -/
theorem different_subtypes_share_location :
    ((update_product_file (fun _ => none) 100 "data" "1" "555" "Normal" [rPast])
        (outputPath "data" "1" "555")).map (fun d => d.subTypeName)
      = some "Normal" ∧
    ((update_product_file
        (update_product_file (fun _ => none) 100 "data" "1" "555" "Normal" [rPast])
        100 "data" "1" "555" "Foil" [rPast])
        (outputPath "data" "1" "555")).map (fun d => d.subTypeName)
      = some "Foil" := by
  have hca : calculate_averages 100 [rPast] = some avgsPast := rfl
  constructor
  · simp [update_product_file, hca]
  · simp [update_product_file, hca]

/-- C7 amended: two keys persist at the same storage location exactly when
they agree on categoryId and productId; the location ignores subTypeName, so
keys differing only there collide (see the counterexample), while keys
differing in categoryId or productId are always stored apart. -/
theorem outputPath_collision_iff (data_dir c1 p1 c2 p2 : String) :
    outputPath data_dir c1 p1 = outputPath data_dir c2 p2 ↔ (c1 = c2 ∧ p1 = p2) := by
  constructor
  · intro h
    simp only [outputPath, List.cons.injEq, and_true] at h
    refine ⟨h.2.1, ?_⟩
    have hd := congrArg String.data h.2.2
    rw [String.data_append, String.data_append] at hd
    exact String.ext (List.append_cancel_right hd)
  · intro h
    rw [h.1, h.2]

/-- Outcome of one day of the bootstrap loop of fetch_and_build_history,
utils.py lines 254 to 275: the download can fail (download_file returns
false, handled at line 274), the processing of the day can raise (caught at
line 269), or the day yields a per-key mapping of extracted records. -/
inductive DayResult where
  | downloadFailed
  | processError
  | ok (data : (String × String × String) → List PriceRecord)

/-- The record accumulation of fetch_and_build_history, utils.py lines 252
to 267: the days are visited in order; a failed download is logged and
skipped, an error raised while processing a day is caught, logged and
skipped, and a successful day has each of its per-key record lists appended
to the accumulator. The function returns normally whatever the per-day
outcomes are, so the bootstrap path never fails the process on a bad day. -/
def fetch_and_build_history (days : List DayResult) :
    (String × String × String) → List PriceRecord :=
  days.foldl
    (fun acc d =>
      match d with
      | DayResult.ok data => fun k => acc k ++ data k
      | _ => acc)
    (fun _ => [])

/-- Exit status of main, daily_update.py lines 25 to 59: with no existing
data the run builds the bootstrap history and returns, so the process ends
with status 0; otherwise the incremental run exits 1 when the download of
the target day fails (line 59) or when process_daily_data raises (line 53),
and ends with status 0 otherwise. -/
def main_exit (data_exists : Bool) (days : List DayResult)
    (download_ok process_ok : Bool) : ℕ :=
  if data_exists = false then
    let _ := fetch_and_build_history days
    0
  else if download_ok then (if process_ok then 0 else 1)
  else 1

/-- C8: an incremental run exits with 0 exactly when both the required
download and the processing step succeed, and with a nonzero status
otherwise; a bootstrap run exits with 0, and a failed day (either kind of
failure) is simply skipped: the accumulated history equals that of the run
without the failed day, so processing continues with the next day. -/
theorem exit_status_by_mode (days : List DayResult)
    (download_ok process_ok : Bool) (pre post : List DayResult) :
    (main_exit true days download_ok process_ok = 0 ↔
      (download_ok = true ∧ process_ok = true)) ∧
    main_exit false days download_ok process_ok = 0 ∧
    fetch_and_build_history (pre ++ DayResult.downloadFailed :: post)
      = fetch_and_build_history (pre ++ post) ∧
    fetch_and_build_history (pre ++ DayResult.processError :: post)
      = fetch_and_build_history (pre ++ post) := by
  refine ⟨?_, ?_, ?_, ?_⟩
  · cases download_ok <;> cases process_ok <;> simp [main_exit]
  · simp [main_exit]
  · simp [fetch_and_build_history, List.foldl_append]
  · simp [fetch_and_build_history, List.foldl_append]

/-- Result and scratch-directory state of one call of
extract_prices_from_archive. temp_dir_left says whether the scratch
directory temp_<date> still exists on disk when the call ends; the result is
the returned record sequence, or error for an exception propagated to the
caller. -/
structure ExtractRun where
  result : Except Unit (List RawRecord)
  temp_dir_left : Bool

/-- Control-flow model of extract_prices_from_archive, utils.py lines 53 to
140, with the fate of the scratch directory. open_ok models whether opening
and listing the archive (lines 64 to 65) succeeds; extract_ok models whether
z.extract at line 86 completes. The branches mirror the source: an open
failure propagates before the scratch directory is ever referenced; with no
qualifying file the function returns at line 77 before creating it; when
z.extract raises after the directory came into being, the handler at lines
136 to 138 logs and re-raises without reaching the cleanup at line 134 and
no finally-equivalent protects it, so the directory is left on disk; on the
remaining path each qualifying entry is processed (per-entry failures are
caught inside the loop) and the directory is removed at line 134. -/
def extract_run (date_str : String) (target : List String)
    (entries : List ArchiveEntry) (open_ok extract_ok : Bool) : ExtractRun :=
  if open_ok = false then
    { result := Except.error (), temp_dir_left := false }
  else if (files_to_process target entries).isEmpty then
    { result := Except.ok [], temp_dir_left := false }
  else if extract_ok = false then
    { result := Except.error (), temp_dir_left := true }
  else
    { result := Except.ok (extract_prices_from_archive date_str target entries),
      temp_dir_left := false }

/-- A concrete qualifying entry: four segments, category 1, final segment
prices. -/
def entryQ : ArchiveEntry :=
  ArchiveEntry.mk "2024-01-01/1/10/prices" (some (Json.arr []))

/-- C9 exhibits a code bug: on the fatal path where decompression of the
qualifying entries raises, the call propagates the error yet leaves the
scratch directory behind, while the same call with decompression succeeding
removes it; removal on every exit path, as the claim states, does not hold
of the code. -/
theorem scratch_dir_leaks_on_extract_failure :
    (extract_run "2024-01-01" ["1"] [entryQ] true false).temp_dir_left = true ∧
    (extract_run "2024-01-01" ["1"] [entryQ] true false).result = Except.error () ∧
    (extract_run "2024-01-01" ["1"] [entryQ] true true).temp_dir_left = false := by
  refine ⟨rfl, rfl, rfl⟩

end TcgData
